import Mathlib

/-!
Verification of the gtirb ImageByteMap and DataObject code
(src/unnamed/part_000 = ImageByteMap.cpp, src/src/DataObject.cpp)
against its natural-language specification.

Machine integers: Addr is a 64-bit unsigned quantity; it is embedded as a
Nat, with the wrapping of C++ uint64_t arithmetic made explicit as % 2^64
at exactly the places the source computes with it.
-/

namespace Gtirb

/-- The 64-bit address-space modulus of the C++ uint64_t arithmetic. -/
def addrMod : Nat := 2 ^ 64

/-- The value the source computes as `Ea + Bytes - 1` in uint64_t
arithmetic: adding `addrMod - 1` is subtracting one modulo 2^64,
which avoids truncated Nat subtraction. -/
def wrapEnd (ea n : Nat) : Nat := (ea + n + (addrMod - 1)) % addrMod

/-- Modelled from the spec: the Byte Storage Engine (class ByteMap) is not
under src/; per section 4.2 it is an address-indexed store of bytes with
overwrite (last-writer-wins per byte) and no implicit zero-fill.  It is
embedded as an association list from address to byte value; `bmStore`
overwrites the byte at one address (in-place if present, appended if new). -/
def bmStore : List (Nat × Nat) → Nat → Nat → List (Nat × Nat)
  | [], a, v => [(a, v)]
  | (a', v') :: rest, a, v =>
      if a' = a then (a, v) :: rest else (a', v') :: bmStore rest a v

/-- Modelled from the spec: ByteMap.setData(addr, bytes) writes a contiguous
run, overwriting previously stored bytes byte-by-byte; successive addresses
follow uint64_t wrapping. -/
def bmSetData : List (Nat × Nat) → Nat → List Nat → List (Nat × Nat)
  | bm, _, [] => bm
  | bm, ea, v :: rest => bmSetData (bmStore bm (ea % addrMod) v) (ea + 1) rest

/-- Lookup of the byte stored at one address, absent if never written. -/
def bmLookup : List (Nat × Nat) → Nat → Option Nat
  | [], _ => none
  | (a', v') :: rest, a => if a' = a then some v' else bmLookup rest a

/-- Modelled from the spec: ByteMap.getData(addr, length) reads length bytes
and fails (RangeError) if any byte in the run was never written. -/
def bmGetData : List (Nat × Nat) → Nat → Nat → Option (List Nat)
  | _, _, 0 => some []
  | bm, ea, n + 1 =>
      match bmLookup bm (ea % addrMod) with
      | none => none
      | some v => (bmGetData bm (ea + 1) n).map (fun bs => v :: bs)

/-- Errors of the image/engine layer (section 7 taxonomy): OutOfRange is the
image-level min/max violation thrown by ImageByteMap, RangeError the
engine-level read of a never-written byte. -/
inductive GtirbError where
  | OutOfRange
  | RangeError
deriving DecidableEq

instance {ε α : Type} [DecidableEq ε] [DecidableEq α] :
    DecidableEq (Except ε α) := fun x y =>
  match x, y with
  | .ok a, .ok b =>
      if h : a = b then .isTrue (by rw [h]) else .isFalse (by simp [h])
  | .error a, .error b =>
      if h : a = b then .isTrue (by rw [h]) else .isFalse (by simp [h])
  | .ok _, .error _ => .isFalse (by simp)
  | .error _, .ok _ => .isFalse (by simp)

/-- boost::endian::order, the byte-order attribute of ImageByteMap. -/
inductive ByteOrder where
  | little
  | big
  | native
deriving DecidableEq

/-- The ImageByteMap entity: UUID (16 wire bytes, embedded as a list),
file name, the [EaMinMax.first, EaMinMax.second] address range, base
address, entry point, rebase delta, relocated flag, byte order, and the
underlying Byte Storage Engine instance. -/
structure ImageByteMap where
  uuid : List Nat
  fileName : String
  eaMin : Nat
  eaMax : Nat
  baseAddress : Nat
  entryPointAddress : Nat
  rebaseDelta : Int
  isRelocated : Bool
  byteOrder : ByteOrder
  byteMap : List (Nat × Nat)
deriving DecidableEq

/-- ImageByteMap::setAddrMinMax (part_000 lines 21-31): stores X and
returns true when X.first <= X.second, else resets the range to
(Addr 0, Addr 0) and returns false. -/
def ImageByteMap.setAddrMinMax (s : ImageByteMap) (X : Nat × Nat) :
    Bool × ImageByteMap :=
  if X.1 ≤ X.2 then (true, { s with eaMin := X.1, eaMax := X.2 })
  else (false, { s with eaMin := 0, eaMax := 0 })

/-- ImageByteMap::setData(Addr, gsl::span of const byte) (part_000 lines
53-63): if Ea >= EaMinMax.first and Ea + Data.size_bytes() - 1 (uint64_t
arithmetic) <= EaMinMax.second, delegate the run to the engine; else throw
out_of_range with the object unchanged.  The C++ method mutates this and
throws; it is embedded as returning the post-state and an optional error. -/
def ImageByteMap.setData (s : ImageByteMap) (ea : Nat) (data : List Nat) :
    ImageByteMap × Option GtirbError :=
  if s.eaMin ≤ ea ∧ wrapEnd ea data.length ≤ s.eaMax then
    ({ s with byteMap := bmSetData s.byteMap ea data }, none)
  else
    (s, some .OutOfRange)

/-- The loop body of the bulk-fill overload: for I in [0, Bytes) it calls
ByteMap.setData(Ea + I, one-byte span of Value). -/
def bmFillLoop : List (Nat × Nat) → Nat → Nat → Nat → List (Nat × Nat)
  | bm, _, 0, _ => bm
  | bm, ea, n + 1, v => bmFillLoop (bmSetData bm ea [v]) (ea + 1) n v

/-- ImageByteMap::setData(Addr, size_t, std::byte) (part_000 lines 65-70):
the bulk-fill overload.  The source performs NO min/max containment check:
it loops directly over the engine.  It never throws. -/
def ImageByteMap.setDataFill (s : ImageByteMap) (ea : Nat) (bytes : Nat)
    (v : Nat) : ImageByteMap × Option GtirbError :=
  ({ s with byteMap := bmFillLoop s.byteMap ea bytes v }, none)

/-- ImageByteMap::getData (part_000 lines 72-81): if X >= EaMinMax.first
and X + Bytes - 1 (uint64_t arithmetic) <= EaMinMax.second, return the
result of the engine read (whose failure is the RangeError of the
engine); else throw
out_of_range.  The method is const, so it is embedded as a pure function. -/
def ImageByteMap.getData (s : ImageByteMap) (X : Nat) (bytes : Nat) :
    Except GtirbError (List Nat) :=
  if s.eaMin ≤ X ∧ wrapEnd X bytes ≤ s.eaMax then
    match bmGetData s.byteMap X bytes with
    | some bs => .ok bs
    | none => .error .RangeError
  else
    .error .OutOfRange

/-- The wire message of ImageByteMap, with exactly the fields the codec in
part_000 lines 83-105 reads and writes: uuid, byte_map, file_name,
addr_min, addr_max, base_address, entry_point_address, rebase_delta,
is_relocated.  There is no byte-order field. -/
structure IBMMessage where
  uuid : List Nat
  byte_map : List (Nat × Nat)
  file_name : String
  addr_min : Nat
  addr_max : Nat
  base_address : Nat
  entry_point_address : Nat
  rebase_delta : Int
  is_relocated : Bool
deriving DecidableEq

/-- Modelled from the spec: the ByteMap run-set codec is not under src/;
section 4.6 requires its round trip to be lossless, so the message field
carries the store verbatim. -/
def bmToProtobuf (bm : List (Nat × Nat)) : List (Nat × Nat) := bm

/-- Modelled from the spec: inverse direction of the lossless ByteMap
codec. -/
def bmFromProtobuf (m : List (Nat × Nat)) : List (Nat × Nat) := m

/-- ImageByteMap::toProtobuf (part_000 lines 83-94).  nodeUUIDToBytes
(Serialization.hpp, not under src/) is modelled from the spec: the UUID is
carried on the wire verbatim as a fixed-width byte field. -/
def ImageByteMap.toProtobuf (s : ImageByteMap) : IBMMessage :=
  { uuid := s.uuid
    byte_map := bmToProtobuf s.byteMap
    file_name := s.fileName
    addr_min := s.eaMin
    addr_max := s.eaMax
    base_address := s.baseAddress
    entry_point_address := s.entryPointAddress
    rebase_delta := s.rebaseDelta
    is_relocated := s.isRelocated }

/-- ImageByteMap::fromProtobuf (part_000 lines 96-105): a mutator of an
existing object; it assigns every field the message carries and no other
(in particular ByteOrder is not assigned).  setNodeUUIDFromBytes is
modelled from the spec: the UUID is restored verbatim from the message,
never regenerated. -/
def ImageByteMap.fromProtobuf (s : ImageByteMap) (m : IBMMessage) :
    ImageByteMap :=
  { s with
    uuid := m.uuid
    byteMap := bmFromProtobuf m.byte_map
    fileName := m.file_name
    eaMin := m.addr_min
    eaMax := m.addr_max
    baseAddress := m.base_address
    entryPointAddress := m.entry_point_address
    rebaseDelta := m.rebase_delta
    isRelocated := m.is_relocated }

/-- The DataObject entity (DataObject.cpp): UUID, address, size. -/
structure DataObject where
  uuid : List Nat
  address : Nat
  size : Nat
deriving DecidableEq

/-- The wire message of DataObject, with the fields the codec in
DataObject.cpp lines 11-21 reads and writes. -/
structure DOMessage where
  uuid : List Nat
  address : Nat
  size : Nat
deriving DecidableEq

/-- DataObject::toProtobuf (DataObject.cpp lines 11-15); the UUID transport
helper is modelled from the spec as verbatim bytes. -/
def DataObject.toProtobuf (x : DataObject) : DOMessage :=
  { uuid := x.uuid, address := x.address, size := x.size }

/-- DataObject::fromProtobuf (DataObject.cpp lines 17-21): assigns UUID,
address and size from the message. -/
def DataObject.fromProtobuf (_s : DataObject) (m : DOMessage) : DataObject :=
  { uuid := m.uuid, address := m.address, size := m.size }

/-- A run [a, b] of addresses lies entirely inside [lo, hi] (exact
arithmetic, no wrapping): the containment that the words of the
specification describe. -/
def runContained (lo hi a b : Nat) : Prop := lo ≤ a ∧ b ≤ hi

instance (lo hi a b : Nat) : Decidable (runContained lo hi a b) := by
  unfold runContained; infer_instance

/-- A concrete ImageByteMap used by the counterexample and witness
theorems: range [0, 10], empty engine, little byte order. -/
def ibm0 : ImageByteMap :=
  { uuid := [1], fileName := "f", eaMin := 0, eaMax := 10,
    baseAddress := 0, entryPointAddress := 0, rebaseDelta := 0,
    isRelocated := false, byteOrder := .little, byteMap := [] }

/-- Concrete ImageByteMap with range [1, 10], used for the zero-length
boundary behavior. -/
def ibm1 : ImageByteMap := { ibm0 with eaMin := 1 }

/-- Concrete ImageByteMap with non-default (big) byte order, used against
the round-trip claim. -/
def ibmBig : ImageByteMap := { ibm0 with byteOrder := .big }

/-- Concrete wire message with addr_min greater than addr_max: nothing in
the codec prevents such a message. -/
def badMsg : IBMMessage :=
  { uuid := [1], byte_map := [], file_name := "f", addr_min := 5,
    addr_max := 3, base_address := 0, entry_point_address := 0,
    rebase_delta := 0, is_relocated := false }

/-- Concrete well-formed wire message with addr_min at most addr_max. -/
def goodMsg : IBMMessage := { badMsg with addr_min := 2, addr_max := 9 }

/-- Arithmetic fact about the wrapped end-address computation of the
source: when the run does not wrap past 2^64, the uint64_t value
ea + n - 1 is the exact end address. -/
theorem wrapEnd_eq_of_le (ea n : Nat) (h1 : 1 ≤ ea + n)
    (h2 : ea + n ≤ addrMod) : wrapEnd ea n = ea + n - 1 := by
  have hm : addrMod = 18446744073709551616 := by norm_num [addrMod]
  unfold wrapEnd
  rw [hm] at h2 ⊢
  have hstep : ea + n + (18446744073709551616 - 1) =
      (ea + n - 1) + 18446744073709551616 := by omega
  rw [hstep, Nat.add_mod_right]
  exact Nat.mod_eq_of_lt (by omega)

/-- Claim C1: the bulk-fill overload setData(addr, length, value) is
claimed to apply the [min, max] containment check before delegating and to
fail with OutOfRange, engine untouched, on violation.  The source (part_000
lines 65-70) performs no containment check at all: with min = 100,
max = 200, the call setData(201, 1, value 7) — the boundary case the spec
requires to fail with OutOfRange and not mutate the store — writes the
byte into the engine and reports no error. -/
theorem setDataFill_unchecked_at_boundary :
    ImageByteMap.setDataFill { ibm0 with eaMin := 100, eaMax := 200 } 201 1 7 =
      ({ ibm0 with eaMin := 100, eaMax := 200, byteMap := [(201, 7)] },
        none) ∧
    ¬ runContained 100 200 201 201 := by
  constructor
  · rfl
  · decide

/-- Claim C2 (counterexample): decoding the encoding of an ImageByteMap
with big byte order into an object with little byte order does not
reproduce the original: the wire message has no byte-order field, so the
decoded object keeps the byte order it already had. -/
theorem roundtrip_drops_byte_order :
    ImageByteMap.fromProtobuf ibm0 (ImageByteMap.toProtobuf ibmBig) ≠
      ibmBig := by
  decide

/-- Claim C2 (amended): the ImageByteMap round trip reconstructs the UUID,
file name, [min, max] range, base address, entry-point address, rebase
delta, relocated flag and byte-map contents of the encoded object, but not
its byte order: the decoded object keeps the byte order of the pre-decode
state, because toProtobuf writes no byte-order field and fromProtobuf
assigns none. -/
theorem roundtrip_preserves_all_but_byte_order
    (x s : ImageByteMap) :
    ImageByteMap.fromProtobuf s (ImageByteMap.toProtobuf x) =
      { x with byteOrder := s.byteOrder } := by
  cases x
  cases s
  rfl

/-- Claim C3 (counterexample): with range [0, 10], the span write at
address 2^64 - 1 of two bytes is claimed to fail with OutOfRange and leave
the store unchanged, the run not being contained in [0, 10].  The uint64_t
computation Ea + size - 1 wraps to 0, the containment check passes, and
the engine is written. -/
theorem setData_wraparound_write_goes_through :
    (ImageByteMap.setData ibm0 (2 ^ 64 - 1) [7, 7]).2 = none ∧
    (ImageByteMap.setData ibm0 (2 ^ 64 - 1) [7, 7]).1.byteMap ≠
      ibm0.byteMap ∧
    ¬ runContained ibm0.eaMin ibm0.eaMax (2 ^ 64 - 1)
        (2 ^ 64 - 1 + 2 - 1) := by
  refine ⟨rfl, ?_, by decide⟩
  decide

/-- Claim C3 (amended): for a non-empty span, setData raises OutOfRange
and leaves the object — in particular the store — unchanged whenever
Ea < min or the uint64_t value Ea + size - 1 (which wraps at 2^64) exceeds
max; when the run is contained in [min, max] and does not wrap past the
address space, the whole run is delegated to the engine in a single
write. -/
theorem setData_span_checked (s : ImageByteMap) (ea : Nat)
    (data : List Nat) (hne : data ≠ []) :
    (¬ (s.eaMin ≤ ea ∧ wrapEnd ea data.length ≤ s.eaMax) →
      ImageByteMap.setData s ea data = (s, some .OutOfRange)) ∧
    (runContained s.eaMin s.eaMax ea (ea + data.length - 1) →
      ea + data.length ≤ addrMod →
      ImageByteMap.setData s ea data =
        ({ s with byteMap := bmSetData s.byteMap ea data }, none)) := by
  have hlen : 1 ≤ data.length := by
    cases data with
    | nil => exact absurd rfl hne
    | cons a l => exact Nat.succ_le_succ (Nat.zero_le _)
  constructor
  · intro h
    unfold ImageByteMap.setData
    rw [if_neg h]
  · intro hc hw
    unfold ImageByteMap.setData
    rw [if_pos]
    refine ⟨hc.1, ?_⟩
    rw [wrapEnd_eq_of_le ea data.length (by omega) hw]
    exact hc.2

/-- Witness for the amended claim C3: at range [0, 10], writing one byte
at 20 fails with OutOfRange and leaves the object unchanged, and writing
two bytes at 3 delegates the run to the engine. -/
theorem setData_span_checked_witness :
    ([1] : List Nat) ≠ [] ∧
    ¬ (ibm0.eaMin ≤ 20 ∧ wrapEnd 20 1 ≤ ibm0.eaMax) ∧
    ImageByteMap.setData ibm0 20 [1] = (ibm0, some .OutOfRange) ∧
    ([2, 3] : List Nat) ≠ [] ∧
    runContained ibm0.eaMin ibm0.eaMax 3 (3 + [2, 3].length - 1) ∧
    3 + [2, 3].length ≤ addrMod ∧
    ImageByteMap.setData ibm0 3 [2, 3] =
      ({ ibm0 with byteMap := bmSetData ibm0.byteMap 3 [2, 3] }, none) :=
  ⟨by decide, by decide,
    (setData_span_checked ibm0 20 [1] (by decide)).1 (by decide),
    by decide, by decide, by decide,
    (setData_span_checked ibm0 3 [2, 3] (by decide)).2 (by decide)
      (by decide)⟩

/-- Claim C4 (counterexample): fromProtobuf copies addr_min and addr_max
from the message without any validation, so decoding a message with
addr_min = 5, addr_max = 3 leaves the object with min = 5 greater than
max = 3: deserialization does not re-establish the min at most max
invariant. -/
theorem fromProtobuf_breaks_min_le_max :
    ¬ ((ImageByteMap.fromProtobuf ibm0 badMsg).eaMin ≤
        (ImageByteMap.fromProtobuf ibm0 badMsg).eaMax) := by
  decide

/-- Claim C4 (amended): min at most max holds after every setAddrMinMax
call (a rejected pair resets the range to (0, 0), which satisfies it); it
holds after fromProtobuf only when the decoded message itself satisfies
addr_min at most addr_max, because fromProtobuf copies the two fields
unvalidated. -/
theorem min_le_max_after_updates (s : ImageByteMap) (X : Nat × Nat)
    (m : IBMMessage) :
    ((ImageByteMap.setAddrMinMax s X).2.eaMin ≤
      (ImageByteMap.setAddrMinMax s X).2.eaMax) ∧
    (m.addr_min ≤ m.addr_max →
      (ImageByteMap.fromProtobuf s m).eaMin ≤
        (ImageByteMap.fromProtobuf s m).eaMax) := by
  constructor
  · unfold ImageByteMap.setAddrMinMax
    split
    · next h => simpa using h
    · simp
  · intro h
    simpa [ImageByteMap.fromProtobuf, bmFromProtobuf] using h

/-- Witness for the amended claim C4: storing the pair (3, 7), and
decoding a message with addr_min = 2, addr_max = 9, both leave
min at most max. -/
theorem min_le_max_after_updates_witness :
    goodMsg.addr_min ≤ goodMsg.addr_max ∧
    ((ImageByteMap.setAddrMinMax ibm0 (3, 7)).2.eaMin ≤
      (ImageByteMap.setAddrMinMax ibm0 (3, 7)).2.eaMax) ∧
    ((ImageByteMap.fromProtobuf ibm0 goodMsg).eaMin ≤
      (ImageByteMap.fromProtobuf ibm0 goodMsg).eaMax) :=
  ⟨by decide, (min_le_max_after_updates ibm0 (3, 7) goodMsg).1,
    (min_le_max_after_updates ibm0 (3, 7) goodMsg).2 (by decide)⟩

/-- Claim C5 (counterexample): with range [0, 10], getData at address
2^64 - 1 for 2 bytes is claimed to raise OutOfRange without consulting the
engine, the run not lying within [0, 10].  The uint64_t computation
X + Bytes - 1 wraps to 0, the containment check passes, and the engine is
consulted: the result is the RangeError of the engine (the bytes were
never written), not OutOfRange. -/
theorem getData_wraparound_reaches_engine :
    ¬ runContained ibm0.eaMin ibm0.eaMax (2 ^ 64 - 1)
        (2 ^ 64 - 1 + 2 - 1) ∧
    ImageByteMap.getData ibm0 (2 ^ 64 - 1) 2 = .error .RangeError := by
  constructor
  · decide
  · decide

/-- Claim C5 (amended): for Bytes at least 1, getData raises OutOfRange —
whatever the engine contains, so without consulting it — whenever X < min
or the uint64_t value X + Bytes - 1 (which wraps at 2^64) exceeds max;
when the run is contained in [min, max] and does not wrap past the
address space, the result is exactly the engine read of the full run,
never a clamped or truncated one. -/
theorem getData_checked (s : ImageByteMap) (X bytes : Nat)
    (hb : 1 ≤ bytes) :
    (¬ (s.eaMin ≤ X ∧ wrapEnd X bytes ≤ s.eaMax) →
      ∀ bm, ImageByteMap.getData { s with byteMap := bm } X bytes =
        .error .OutOfRange) ∧
    (runContained s.eaMin s.eaMax X (X + bytes - 1) →
      X + bytes ≤ addrMod →
      ImageByteMap.getData s X bytes =
        match bmGetData s.byteMap X bytes with
        | some bs => .ok bs
        | none => .error .RangeError) := by
  constructor
  · intro h bm
    unfold ImageByteMap.getData
    rw [if_neg]
    exact h
  · intro hc hw
    unfold ImageByteMap.getData
    rw [if_pos]
    refine ⟨hc.1, ?_⟩
    rw [wrapEnd_eq_of_le X bytes (by omega) hw]
    exact hc.2

/-- Witness for the amended claim C5: at range [0, 10], reading one byte
at 20 yields OutOfRange even when the engine holds a byte at 20, and
reading two bytes at 3 (never written) yields exactly the engine result,
here RangeError. -/
theorem getData_checked_witness :
    (1 : Nat) ≤ 1 ∧
    ¬ (ibm0.eaMin ≤ 20 ∧ wrapEnd 20 1 ≤ ibm0.eaMax) ∧
    ImageByteMap.getData { ibm0 with byteMap := [(20, 5)] } 20 1 =
      .error .OutOfRange ∧
    (1 : Nat) ≤ 2 ∧
    runContained ibm0.eaMin ibm0.eaMax 3 (3 + 2 - 1) ∧
    3 + 2 ≤ addrMod ∧
    ImageByteMap.getData ibm0 3 2 =
      (match bmGetData ibm0.byteMap 3 2 with
        | some bs => .ok bs
        | none => .error .RangeError) :=
  ⟨by decide, by decide,
    (getData_checked ibm0 20 1 (by decide)).1 (by decide) [(20, 5)],
    by decide, by decide, by decide,
    (getData_checked ibm0 3 2 (by decide)).2 (by decide) (by decide)⟩

/-- Claim C6: the DataObject round trip is lossless: decoding the encoding
of x, whatever object the decode is applied to, reconstructs exactly the
UUID, address and size of x. -/
theorem dataObject_roundtrip (s x : DataObject) :
    DataObject.fromProtobuf s (DataObject.toProtobuf x) = x := by
  cases x
  rfl

/-- Claim C7: both codecs shown (DataObject and ImageByteMap) carry the
UUID of the entity explicitly as a byte field of the message, and decode
restores exactly the UUID bytes found in the message, never generating a
fresh one. -/
theorem uuid_carried_verbatim (d sd : DataObject) (md : DOMessage)
    (i si : ImageByteMap) (mi : IBMMessage) :
    (DataObject.toProtobuf d).uuid = d.uuid ∧
    (DataObject.fromProtobuf sd md).uuid = md.uuid ∧
    (ImageByteMap.toProtobuf i).uuid = i.uuid ∧
    (ImageByteMap.fromProtobuf si mi).uuid = mi.uuid :=
  ⟨rfl, rfl, rfl, rfl⟩

/-- Claim C8: setAddrMinMax stores the pair X exactly and returns true
when X.first is at most X.second; otherwise it returns false and resets
the stored range to (Addr 0, Addr 0) — the previously stored bounds are
discarded, not kept. -/
theorem setAddrMinMax_behavior (s : ImageByteMap) (X : Nat × Nat) :
    (X.1 ≤ X.2 →
      ImageByteMap.setAddrMinMax s X =
        (true, { s with eaMin := X.1, eaMax := X.2 })) ∧
    (¬ X.1 ≤ X.2 →
      ImageByteMap.setAddrMinMax s X =
        (false, { s with eaMin := 0, eaMax := 0 })) := by
  constructor
  · intro h
    unfold ImageByteMap.setAddrMinMax
    rw [if_pos h]
  · intro h
    unfold ImageByteMap.setAddrMinMax
    rw [if_neg h]

/-- Witness for claim C8: the accepted pair (3, 7) is stored exactly with
result true; the rejected pair (9, 4), applied to an object holding the
range [3, 7], resets the range to (0, 0) with result false. -/
theorem setAddrMinMax_behavior_witness :
    ((3 : Nat), (7 : Nat)).1 ≤ ((3 : Nat), (7 : Nat)).2 ∧
    ImageByteMap.setAddrMinMax ibm0 (3, 7) =
      (true, { ibm0 with eaMin := 3, eaMax := 7 }) ∧
    ¬ ((9 : Nat), (4 : Nat)).1 ≤ ((9 : Nat), (4 : Nat)).2 ∧
    ImageByteMap.setAddrMinMax { ibm0 with eaMin := 3, eaMax := 7 }
        (9, 4) =
      (false, { { ibm0 with eaMin := 3, eaMax := 7 } with
        eaMin := 0, eaMax := 0 }) :=
  ⟨by decide, (setAddrMinMax_behavior ibm0 (3, 7)).1 (by decide),
    by decide,
    (setAddrMinMax_behavior { ibm0 with eaMin := 3, eaMax := 7 }
        (9, 4)).2 (by decide)⟩

/-- Claim C9: each setData overload modifies at most the byte-storage
field of the object: the resulting object equals the input with only the
byteMap field replaced, in the success case and in the violation case
alike (the file name, base address, entry-point address, min and max,
rebase delta, relocated flag and byte order are untouched).  getData is a
const method of the source and is embedded as a pure function, so it has
no post-state at all. -/
theorem setData_frame (s : ImageByteMap) (ea n v : Nat)
    (data : List Nat) :
    (ImageByteMap.setData s ea data).1 =
      { s with byteMap := (ImageByteMap.setData s ea data).1.byteMap } ∧
    (ImageByteMap.setDataFill s ea n v).1 =
      { s with byteMap :=
          (ImageByteMap.setDataFill s ea n v).1.byteMap } := by
  constructor
  · unfold ImageByteMap.setData
    split
    · rfl
    · rfl
  · rfl

/-- Claim C10 (counterexample): the claim states that a zero-length access
at an address X whose predecessor X - 1 falls outside [min, max] raises
OutOfRange.  With range [1, 10], the access getData(1, 0) has predecessor
0, which lies below min = 1, yet the check of the source compares X
against min and the wrapped X - 1 against max only: both comparisons pass
and the call reaches the engine, returning the empty read. -/
theorem getData_zero_length_low_predecessor_passes :
    (1 + 0 - 1 : Nat) < ibm1.eaMin ∧
    ImageByteMap.getData ibm1 1 0 = .ok [] := by
  constructor
  · decide
  · decide

/-- Claim C10 (amended): zero-length accesses are not unconditionally
treated as in-bounds: for Bytes = 0 in getData and for the empty span in
setData, the containment check compares X against min and the uint64_t
value X + 0 - 1 — that is, X - 1 with wraparound — against max.  Hence
getData(max + 1, 0) passes the bounds check and reaches the engine (the
zero-length engine read succeeds), and the empty-span setData(max + 1)
likewise passes the check and delegates the empty run to the engine (a
no-op on the store); a zero-length access raises OutOfRange exactly when
X < min or the wrapped X - 1 exceeds max — both directions proven for
both functions — in particular getData(0, 0) raises OutOfRange since
0 - 1 wraps to 2^64 - 1, while a zero-length access whose predecessor
merely lies below min, such as X = min with min at least 1, is not
rejected. -/
theorem getData_zero_length_check (s : ImageByteMap) (X : Nat)
    (h1 : s.eaMin ≤ s.eaMax) (h2 : s.eaMax + 1 < addrMod) :
    ImageByteMap.getData s (s.eaMax + 1) 0 = .ok [] ∧
    ImageByteMap.setData s (s.eaMax + 1) [] = (s, none) ∧
    (ImageByteMap.getData s X 0 = .error .OutOfRange ↔
      X < s.eaMin ∨ s.eaMax < wrapEnd X 0) ∧
    (ImageByteMap.setData s X [] = (s, some .OutOfRange) ↔
      X < s.eaMin ∨ s.eaMax < wrapEnd X 0) ∧
    ImageByteMap.getData s 0 0 = .error .OutOfRange := by
  have hm : addrMod = 18446744073709551616 := by norm_num [addrMod]
  have hwmax : wrapEnd (s.eaMax + 1) 0 = s.eaMax := by
    rw [wrapEnd_eq_of_le (s.eaMax + 1) 0 (by omega) (by omega)]
    omega
  have hw0 : wrapEnd 0 0 = addrMod - 1 := by
    unfold wrapEnd
    simp [Nat.mod_eq_of_lt (show addrMod - 1 < addrMod by omega)]
  refine ⟨?_, ?_, ?_, ?_, ?_⟩
  · unfold ImageByteMap.getData
    rw [if_pos ⟨by omega, by omega⟩]
    simp [bmGetData]
  · unfold ImageByteMap.setData
    simp only [List.length_nil]
    rw [if_pos ⟨by omega, by omega⟩]
    rfl
  · constructor
    · intro h
      by_cases hc : s.eaMin ≤ X ∧ wrapEnd X 0 ≤ s.eaMax
      · unfold ImageByteMap.getData at h
        rw [if_pos hc] at h
        simp [bmGetData] at h
      · omega
    · intro h
      unfold ImageByteMap.getData
      rw [if_neg (by omega)]
  · constructor
    · intro h
      by_cases hc : s.eaMin ≤ X ∧ wrapEnd X 0 ≤ s.eaMax
      · unfold ImageByteMap.setData at h
        simp only [List.length_nil] at h
        rw [if_pos hc] at h
        simp [bmSetData] at h
      · omega
    · intro h
      unfold ImageByteMap.setData
      simp only [List.length_nil]
      rw [if_neg (by omega)]
  · unfold ImageByteMap.getData
    rw [if_neg]
    intro hc
    rw [hw0] at hc
    have := hc.2
    omega

/-- Witness for the amended claim C10: at range [0, 10], the zero-length
read at 11 = max + 1 succeeds with the empty result, the empty-span write
at 11 delegates and leaves the object unchanged, the zero-length accesses
at 20 (whose wrapped predecessor 19 exceeds max) raise OutOfRange in both
functions — the biconditionals instantiated at X = 20 — and the
zero-length read at 0 raises OutOfRange. -/
theorem getData_zero_length_check_witness :
    ibm0.eaMin ≤ ibm0.eaMax ∧
    ibm0.eaMax + 1 < addrMod ∧
    ImageByteMap.getData ibm0 (ibm0.eaMax + 1) 0 = .ok [] ∧
    ImageByteMap.setData ibm0 (ibm0.eaMax + 1) [] = (ibm0, none) ∧
    (ImageByteMap.getData ibm0 20 0 = .error .OutOfRange ↔
      20 < ibm0.eaMin ∨ ibm0.eaMax < wrapEnd 20 0) ∧
    (ImageByteMap.setData ibm0 20 [] = (ibm0, some .OutOfRange) ↔
      20 < ibm0.eaMin ∨ ibm0.eaMax < wrapEnd 20 0) ∧
    ImageByteMap.getData ibm0 0 0 = .error .OutOfRange :=
  ⟨by decide, by decide,
    (getData_zero_length_check ibm0 20 (by decide) (by decide)).1,
    (getData_zero_length_check ibm0 20 (by decide) (by decide)).2.1,
    (getData_zero_length_check ibm0 20 (by decide) (by decide)).2.2.1,
    (getData_zero_length_check ibm0 20 (by decide) (by decide)).2.2.2.1,
    (getData_zero_length_check ibm0 20 (by decide) (by decide)).2.2.2.2⟩

end Gtirb
